import Mathlib

set_option maxRecDepth 8192

/-!
# Verification of the code2prompt-mcp Context Tool Gateway

Shallow embedding of `src/code2prompt_mcp/main.py`: the artifact-writing tool
`get_context_for_gemini` and the question-answering tool `ask_gemini_question`.
The external code2prompt engine, the filesystem and the hosted Gemini model are
modelled as explicit parameters (engine outcome, write/read exceptions, call
outcome); everything the Python file itself computes — validation, path
construction, fallback substitution, message construction and error
classification — is translated directly from the source.
-/

namespace Code2PromptMcp

/-- Python's per-character ASCII lowercasing, modelling `str.lower()`
(faithful on the ASCII messages and patterns the source matches on). -/
def lowerStr (s : String) : String := ⟨s.data.map Char.toLower⟩

/-- `containsSub s pat` models the Python substring test `pat in s`. -/
def containsSub (s pat : String) : Bool := decide (pat.data <:+: s.data)

/-- CPython's Unicode whitespace predicate (`Py_UNICODE_ISSPACE`), the
character class stripped by `str.strip()` and split on by `str.split()`. -/
def pyIsSpace (c : Char) : Bool :=
  (0x09 ≤ c.toNat && c.toNat ≤ 0x0d) || (0x1c ≤ c.toNat && c.toNat ≤ 0x1f) ||
  c.toNat == 0x20 || c.toNat == 0x85 || c.toNat == 0xa0 || c.toNat == 0x1680 ||
  (0x2000 ≤ c.toNat && c.toNat ≤ 0x200a) || c.toNat == 0x2028 || c.toNat == 0x2029 ||
  c.toNat == 0x202f || c.toNat == 0x205f || c.toNat == 0x3000

/-- Python `s.strip() == ""`: every character of `s` is whitespace. -/
def stripIsEmpty (s : String) : Bool := s.data.all pyIsSpace

/-- The filesystem visible to the gateway: a write history, newest first;
a read finds the most recent write to the path. -/
structure FileSystem where
  files : List (String × String)
deriving DecidableEq

def FileSystem.write (fs : FileSystem) (p c : String) : FileSystem :=
  ⟨(p, c) :: fs.files⟩

def FileSystem.read (fs : FileSystem) (p : String) : Option String :=
  (fs.files.find? (fun e => e.1 == p)).map (fun e => e.2)

/-- Result dictionary of `get_context` (main.py lines 85-89), as produced by
the external code2prompt engine. -/
structure ScanResult where
  prompt : String
  directory : String
  token_count : Nat
deriving DecidableEq

/-- The temp subfolder name hard-coded at main.py line 157. -/
def contextSubfolder : String := "Claude Code Gemini Context"

/-- main.py lines 156-162: `Path(tempfile.gettempdir()) / "Claude Code Gemini
Context" / f"context_{uuid.uuid4().hex}.txt"`, with the random hex made an
explicit parameter. -/
def outputPath (systemTempDir hexId : String) : String :=
  systemTempDir ++ "/" ++ contextSubfolder ++ "/" ++ ("context_" ++ hexId ++ ".txt")

/-- A POSIX-absolute path: begins with '/'. -/
def isAbsolutePath (p : String) : Bool :=
  match p.data with
  | [] => false
  | c :: _ => c == '/'

/-- The fallback notice substituted for empty context, main.py line 170. -/
def fallbackNotice : String :=
  "# No context generated\n\nNo files were found or all files were excluded by the specified patterns.\n"

/-- main.py lines 168-170: `if not content or content.strip() == ""` replace
the content by the fallback notice. -/
def artifactContent (prompt : String) : String :=
  if prompt == "" || stripIsEmpty prompt then fallbackNotice else prompt

/-- The exceptions the artifact write can raise, as dispatched by the
`except` clauses at main.py lines 176-192: `PermissionError` is caught first,
then any other `OSError` (carrying its errno), then any other exception. -/
inductive PyExc where
  | permissionError (msg : String)
  | osError (errno : Int) (msg : String)
  | otherError (msg : String)
deriving DecidableEq

/-- The error message raised for a failed artifact write, main.py
lines 176-192 (errno 28 is ENOSPC). -/
def writeErrorMessage (outputFile : String) : PyExc → String
  | .permissionError m =>
      "Permission denied when writing to " ++ outputFile ++ (": " ++ m)
  | .osError errno m =>
      if errno == 28 then
        "Insufficient disk space to write context file to " ++ outputFile
      else
        "Failed to write context file to " ++ outputFile ++ (": " ++ m)
  | .otherError m =>
      "Unexpected error writing context file to " ++ outputFile ++ (": " ++ m)

/-- The four write-failure categories of spec section 4.4. -/
inductive WriteFailureCategory where
  | permissionDenied
  | outOfSpace
  | osWriteFailure
  | unexpectedWriteFailure
deriving DecidableEq

/-- Which `except` clause (and which branch of the OSError clause) handles a
given write exception, main.py lines 176-192. -/
def writeErrorCategory : PyExc → WriteFailureCategory
  | .permissionError _ => .permissionDenied
  | .osError errno _ => if errno == 28 then .outOfSpace else .osWriteFailure
  | .otherError _ => .unexpectedWriteFailure

/-- main.py lines 92-197, `get_context_for_gemini`. The engine's outcome
(`genOutcome`, the `get_context` call of lines 137-154) and a possible write
exception (`writeExc`, lines 166-192) are explicit parameters; on success the
artifact content is written to the UUID-named temp path and the absolute path
is returned (lines 156-197). -/
def get_context_for_gemini (systemTempDir hexId : String)
    (genOutcome : Except String ScanResult) (writeExc : Option PyExc)
    (fs : FileSystem) : Except String String × FileSystem :=
  match genOutcome with
  | .error e => (.error ("Failed to generate codebase context: " ++ e), fs)
  | .ok res =>
      let file := outputPath systemTempDir hexId
      let content := artifactContent res.prompt
      match writeExc with
      | some exc => (.error (writeErrorMessage file exc), fs)
      | none => (.ok file, fs.write file content)

/-- main.py lines 300-310, the read-artifact stage of `ask_gemini_question`:
a missing file raises "Context file not found at: <path>" inside the `try`,
and every failure (that raise included) is re-wrapped with the
"Failed to read context file: " prefix. `readExc` is a possible exception
from `read_text` on an existing file. -/
def readArtifactStage (fs : FileSystem) (p : String) (readExc : Option String) :
    Except String String :=
  match fs.read p with
  | none => .error ("Failed to read context file: " ++ ("Context file not found at: " ++ p))
  | some content =>
      match readExc with
      | some m => .error ("Failed to read context file: " ++ m)
      | none => .ok content

/-- Fixed surfaced message of the authentication branch, main.py line 351. -/
def authTemplate : String :=
  "Authentication failed: Invalid or expired API key. Please check your GEMINI_API_KEY."

/-- Fixed surfaced message of the rate-limit branch, main.py line 353. -/
def rateLimitTemplate : String :=
  "Rate limit exceeded. Please wait before making another request."

/-- Fixed surfaced message of the safety branch, main.py line 355. -/
def safetyTemplate : String :=
  "Content blocked by safety filters. Please rephrase your question."

/-- Fixed surfaced message of the model-unavailable branch, main.py line 357. -/
def modelUnavailableTemplate : String :=
  "Gemini model temporarily unavailable. Please try again later."

/-- Fixed surfaced message of the timeout branch, main.py line 359. -/
def timeoutTemplate : String :=
  "Network timeout. Please check your connection and try again."

/-- main.py lines 344-361: the message surfaced for a hosted-model failure
whose raw message is `errMsg`, chosen by the if/elif chain of
case-insensitive substring tests (`str(e).lower()`). -/
def classifyGeminiError (errMsg : String) : String :=
  let low := lowerStr errMsg
  if containsSub low "authentication" || containsSub low "api key" then
    authTemplate
  else if containsSub low "rate limit" || containsSub low "quota" then
    rateLimitTemplate
  else if containsSub low "safety" || containsSub low "blocked" then
    safetyTemplate
  else if containsSub low "model" && containsSub low "unavailable" then
    modelUnavailableTemplate
  else if containsSub low "timeout" || containsSub low "network" then
    timeoutTemplate
  else
    "AI service error: " ++ errMsg

/-- The six hosted-model failure categories of the spec taxonomy. -/
inductive ErrorCategory where
  | authFailure
  | rateLimit
  | contentFiltered
  | modelUnavailable
  | networkTimeout
  | genericServiceError
deriving DecidableEq

/-- Specification-side rule list (spec section 4.5 stage 5): ordered
(predicate-over-lowercased-message, category) pairs. The authentication
test is the substring pair "authentication"/"api key" exactly as the code
spells them. -/
def specRules : List ((String → Bool) × ErrorCategory) :=
  [ (fun low => containsSub low "authentication" || containsSub low "api key", .authFailure),
    (fun low => containsSub low "rate limit" || containsSub low "quota", .rateLimit),
    (fun low => containsSub low "safety" || containsSub low "blocked", .contentFiltered),
    (fun low => containsSub low "model" && containsSub low "unavailable", .modelUnavailable),
    (fun low => containsSub low "timeout" || containsSub low "network", .networkTimeout) ]

/-- Specification-side evaluation: top-to-bottom, first match wins, default
generic-service-error. -/
def firstMatch : List ((String → Bool) × ErrorCategory) → String → ErrorCategory
  | [], _ => .genericServiceError
  | r :: rest, low => if r.1 low then r.2 else firstMatch rest low

/-- Specification-side classifier of a raw hosted-model error message. -/
def specClassify (errMsg : String) : ErrorCategory :=
  firstMatch specRules (lowerStr errMsg)

/-- The surfaced message template of each category; only the generic
category's message depends on the raw upstream message. -/
def surfacedTemplate (c : ErrorCategory) (rawMsg : String) : String :=
  match c with
  | .authFailure => authTemplate
  | .rateLimit => rateLimitTemplate
  | .contentFiltered => safetyTemplate
  | .modelUnavailable => modelUnavailableTemplate
  | .networkTimeout => timeoutTemplate
  | .genericServiceError => "AI service error: " ++ rawMsg

/-- The supported-model list, main.py line 262. -/
def supported_models : List String := ["gemini-2.5-pro", "gemini-2.5-flash"]

/-- The invalid-model message, main.py line 264:
`f"Unsupported model '{model}'. Supported models: {', '.join(supported_models)}"`. -/
def invalidModelMsg (model : String) : String :=
  "Unsupported model '" ++ model ++
    ("'. Supported models: " ++ String.intercalate ", " supported_models)

/-- The missing-credential message, main.py lines 271-275. -/
def missingKeyMsg : String :=
  "GEMINI_API_KEY environment variable is required. Please set it in your environment or create a .env file with: GEMINI_API_KEY=your_api_key_here"

/-- Python `not api_key` on `os.getenv("GEMINI_API_KEY")`: the variable is
unset or set to the empty string. -/
def apiKeyMissing : Option String → Bool
  | none => true
  | some s => s == ""

/-- Outcome of the hosted-model call (main.py lines 322-334): a response
with an optional `text` field and its generic string form, or an exception
carrying a raw message. -/
inductive GeminiCallOutcome where
  | success (text : Option String) (strForm : String)
  | failure (errMsg : String)
deriving DecidableEq

/-- Result dictionary of a successful `ask_gemini_question`,
main.py lines 337-342. -/
structure AskResult where
  answer : String
  context_file : String
  token_count : Nat
  model_used : String
deriving DecidableEq

/-- `len(full_prompt.split())`, main.py line 340: the number of maximal
whitespace-free runs. -/
def countWordsAux : Bool → List Char → Nat
  | _, [] => 0
  | prevSpace, c :: rest =>
      if pyIsSpace c then countWordsAux true rest
      else (if prevSpace then 1 else 0) + countWordsAux false rest

def countWords (s : String) : Nat := countWordsAux true s.data

/-- Observable effects of one `ask_gemini_question` call: the resulting
filesystem, whether context extraction (stage 3) was entered, and whether
the hosted-model call (stage 5) was made. -/
structure AskEffects where
  fs : FileSystem
  extractionAttempted : Bool
  geminiCalled : Bool
deriving DecidableEq

/-- main.py lines 201-361, `ask_gemini_question`. Stage 1 validates the
model name, stage 2 the API key (fresh from the environment, an explicit
parameter), stage 3 calls `get_context_for_gemini` wrapping any failure
with "Context extraction failed: ", stage 4 re-reads the artifact, stage 5
calls the hosted model and classifies failures. -/
def ask_gemini_question (question model : String) (apiKey : Option String)
    (systemTempDir hexId : String) (genOutcome : Except String ScanResult)
    (writeExc : Option PyExc) (readExc : Option String)
    (gemini : GeminiCallOutcome) (fs : FileSystem) :
    Except String AskResult × AskEffects :=
  if supported_models.contains model = false then
    (.error (invalidModelMsg model), ⟨fs, false, false⟩)
  else if apiKeyMissing apiKey then
    (.error missingKeyMsg, ⟨fs, false, false⟩)
  else
    match get_context_for_gemini systemTempDir hexId genOutcome writeExc fs with
    | (.error e, fs') => (.error ("Context extraction failed: " ++ e), ⟨fs', true, false⟩)
    | (.ok contextFilePath, fs') =>
        match readArtifactStage fs' contextFilePath readExc with
        | .error e => (.error e, ⟨fs', true, false⟩)
        | .ok contextContent =>
            match gemini with
            | .failure m => (.error (classifyGeminiError m), ⟨fs', true, true⟩)
            | .success text strForm =>
                let full_prompt := contextContent ++ ("\n\nQuestion: " ++ question)
                let answer := match text with
                  | some t => t
                  | none => strForm
                (.ok ⟨answer, contextFilePath, countWords full_prompt, model⟩,
                 ⟨fs', true, true⟩)

/-! ## Helper lemmas on strings, substrings and the filesystem model -/

theorem string_append_cancel_left {a b c : String} (h : a ++ b = a ++ c) : b = c := by
  apply String.ext
  have h2 := congrArg String.data h
  rw [String.data_append, String.data_append] at h2
  exact List.append_cancel_left h2

theorem string_append_cancel_right {a b c : String} (h : a ++ b = c ++ b) : a = c := by
  apply String.ext
  have h2 := congrArg String.data h
  rw [String.data_append, String.data_append] at h2
  exact List.append_cancel_right h2

theorem containsSub_sandwich (a b c : String) : containsSub (a ++ b ++ c) b = true := by
  simp only [containsSub, String.data_append, decide_eq_true_eq]
  exact List.infix_append _ _ _

theorem containsSub_left (a b : String) : containsSub (a ++ b) a = true := by
  simp only [containsSub, String.data_append, decide_eq_true_eq]
  exact (List.prefix_append _ _).isInfix

theorem containsSub_right (a b : String) : containsSub (a ++ b) b = true := by
  simp only [containsSub, String.data_append, decide_eq_true_eq]
  exact (List.suffix_append _ _).isInfix

theorem containsSub_mono_l {t pat : String} (a : String) (h : containsSub t pat = true) :
    containsSub (a ++ t) pat = true := by
  simp only [containsSub, String.data_append, decide_eq_true_eq] at *
  exact h.trans (List.suffix_append _ _).isInfix

theorem containsSub_mono_r {t pat : String} (b : String) (h : containsSub t pat = true) :
    containsSub (t ++ b) pat = true := by
  simp only [containsSub, String.data_append, decide_eq_true_eq] at *
  exact h.trans (List.prefix_append _ _).isInfix

theorem containsSub_self (a : String) : containsSub a a = true := by
  simp only [containsSub, decide_eq_true_eq]
  exact List.infix_rfl

theorem isAbsolutePath_append (a b : String) (h : isAbsolutePath a = true) :
    isAbsolutePath (a ++ b) = true := by
  have hd := String.data_append a b
  cases ha : a.data with
  | nil => simp [isAbsolutePath, ha] at h
  | cons c cs =>
      rw [ha] at hd
      simp only [isAbsolutePath, ha] at h
      simp [isAbsolutePath, hd, h]

theorem read_write_same (fs : FileSystem) (p c : String) :
    (fs.write p c).read p = some c := by
  simp [FileSystem.write, FileSystem.read, List.find?]

theorem read_write_other (fs : FileSystem) (p q c : String) (h : q ≠ p) :
    (fs.write q c).read p = fs.read p := by
  have hb : (q == p) = false := beq_eq_false_iff_ne.mpr h
  simp [FileSystem.write, FileSystem.read, List.find?, hb]

theorem outputPath_hex_inj {s h1 h2 : String}
    (h : outputPath s h1 = outputPath s h2) : h1 = h2 := by
  unfold outputPath at h
  have h3 := string_append_cancel_left h
  have h4 := string_append_cancel_left (string_append_cancel_right h3)
  exact h4

/-! ## Claim theorems -/

/-- C1: for every exception raised by the hosted-model call, the surfaced
failure message is chosen by case-insensitive substring tests evaluated
first-match-wins in the priority order authentication/api-key, rate
limit/quota, safety/blocked, model+unavailable, timeout/network, else
generic: the code's if/elif chain agrees with the spec's ordered rule list
on every message; and in particular a message matching both the
authentication tests and the rate-limit tests is classified auth-failure. -/
theorem c1_classification_priority :
    (∀ msg : String,
      classifyGeminiError msg = surfacedTemplate (specClassify msg) msg) ∧
    (∀ msg : String,
      (containsSub (lowerStr msg) "authentication" || containsSub (lowerStr msg) "api key") = true →
      (containsSub (lowerStr msg) "rate limit" || containsSub (lowerStr msg) "quota") = true →
      specClassify msg = .authFailure ∧ classifyGeminiError msg = authTemplate) := by
  constructor
  · intro msg
    simp only [classifyGeminiError, specClassify, specRules, firstMatch]
    cases hb1 : (containsSub (lowerStr msg) "authentication" || containsSub (lowerStr msg) "api key") <;>
    cases hb2 : (containsSub (lowerStr msg) "rate limit" || containsSub (lowerStr msg) "quota") <;>
    cases hb3 : (containsSub (lowerStr msg) "safety" || containsSub (lowerStr msg) "blocked") <;>
    cases hb4 : (containsSub (lowerStr msg) "model" && containsSub (lowerStr msg) "unavailable") <;>
    cases hb5 : (containsSub (lowerStr msg) "timeout" || containsSub (lowerStr msg) "network") <;>
      simp [hb1, hb2, hb3, hb4, hb5, surfacedTemplate]
  · intro msg h1 h2
    constructor
    · simp [specClassify, specRules, firstMatch, h1]
    · simp [classifyGeminiError, h1]

/-- C1 witness: the concrete message "Authentication error: Rate Limit hit"
matches both the authentication and the rate-limit tests and is classified
auth-failure. -/
theorem c1_classification_priority_witness :
    specClassify "Authentication error: Rate Limit hit" = .authFailure ∧
    classifyGeminiError "Authentication error: Rate Limit hit" = authTemplate :=
  c1_classification_priority.2 "Authentication error: Rate Limit hit"
    (by decide) (by decide)

/-- C7: a hosted-model failure whose raw message contains "rate limit" in
any letter case and matches neither authentication test is surfaced as the
fixed rate-limit template, which contains "Rate limit exceeded" and is a
constant independent of the raw message (so nothing of the raw upstream
message beyond the category phrase appears in it). -/
theorem c7_rate_limit_template (msg : String)
    (hrl : containsSub (lowerStr msg) "rate limit" = true)
    (hauth : (containsSub (lowerStr msg) "authentication" || containsSub (lowerStr msg) "api key") = false) :
    classifyGeminiError msg = rateLimitTemplate ∧
    containsSub rateLimitTemplate "Rate limit exceeded" = true := by
  refine ⟨?_, by decide⟩
  simp [classifyGeminiError, hauth, hrl]

/-- C7 witness at the concrete upstream message "Rate LIMIT reached". -/
theorem c7_rate_limit_template_witness :
    classifyGeminiError "Rate LIMIT reached" = rateLimitTemplate ∧
    containsSub rateLimitTemplate "Rate limit exceeded" = true :=
  c7_rate_limit_template "Rate LIMIT reached" (by decide) (by decide)

/-- C8 counterexample: the claim "the surfaced message ... never echoes back
the upstream exception's raw message text" is false: the raw message
"upstream secret detail xyzzy123" matches none of the five specific
category tests, and the surfaced message echoes it verbatim. -/
theorem c8_counterexample :
    specClassify "upstream secret detail xyzzy123" = .genericServiceError ∧
    classifyGeminiError "upstream secret detail xyzzy123"
      = "AI service error: upstream secret detail xyzzy123" ∧
    containsSub (classifyGeminiError "upstream secret detail xyzzy123")
      "upstream secret detail xyzzy123" = true := by
  decide

/-- C8 amended: for the five specifically matched categories the surfaced
message is a fixed template independent of the raw upstream message; for
the generic-service-error category the surfaced message is
"AI service error: " followed by the raw upstream message verbatim. -/
theorem c8_fixed_templates (msg : String) :
    (specClassify msg ≠ .genericServiceError →
      classifyGeminiError msg = surfacedTemplate (specClassify msg) "") ∧
    (specClassify msg = .genericServiceError →
      classifyGeminiError msg = "AI service error: " ++ msg) := by
  constructor
  · intro hne
    simp only [classifyGeminiError, specClassify, specRules, firstMatch] at hne ⊢
    cases hb1 : (containsSub (lowerStr msg) "authentication" || containsSub (lowerStr msg) "api key") <;>
    cases hb2 : (containsSub (lowerStr msg) "rate limit" || containsSub (lowerStr msg) "quota") <;>
    cases hb3 : (containsSub (lowerStr msg) "safety" || containsSub (lowerStr msg) "blocked") <;>
    cases hb4 : (containsSub (lowerStr msg) "model" && containsSub (lowerStr msg) "unavailable") <;>
    cases hb5 : (containsSub (lowerStr msg) "timeout" || containsSub (lowerStr msg) "network") <;>
      simp [hb1, hb2, hb3, hb4, hb5, surfacedTemplate] at hne ⊢
  · intro heq
    simp only [classifyGeminiError, specClassify, specRules, firstMatch] at heq ⊢
    cases hb1 : (containsSub (lowerStr msg) "authentication" || containsSub (lowerStr msg) "api key") <;>
    cases hb2 : (containsSub (lowerStr msg) "rate limit" || containsSub (lowerStr msg) "quota") <;>
    cases hb3 : (containsSub (lowerStr msg) "safety" || containsSub (lowerStr msg) "blocked") <;>
    cases hb4 : (containsSub (lowerStr msg) "model" && containsSub (lowerStr msg) "unavailable") <;>
    cases hb5 : (containsSub (lowerStr msg) "timeout" || containsSub (lowerStr msg) "network") <;>
      simp [hb1, hb2, hb3, hb4, hb5] at heq ⊢

/-- C8 amended witness: a quota message gets the fixed rate-limit template,
and an unmatched message gets the echoing generic message. -/
theorem c8_fixed_templates_witness :
    classifyGeminiError "Quota exhausted" = surfacedTemplate (specClassify "Quota exhausted") "" ∧
    classifyGeminiError "odd glitch" = "AI service error: " ++ "odd glitch" :=
  ⟨(c8_fixed_templates "Quota exhausted").1 (by decide),
   (c8_fixed_templates "odd glitch").2 (by decide)⟩

/-- C2: on a successful engine call and write, reading back the file at the
path returned by `get_context_for_gemini` yields exactly the prompt text
`get_context` produced (character-for-character, Unicode included, since
the filesystem model stores the written string unchanged); except that when
the prompt is empty or whitespace-only, the file contains the fallback
notice, which contains both "No context generated" and
"No files were found". -/
theorem c2_artifact_roundtrip (systemTempDir hexId : String) (res : ScanResult)
    (fs : FileSystem) :
    (get_context_for_gemini systemTempDir hexId (.ok res) none fs).1
      = .ok (outputPath systemTempDir hexId) ∧
    (get_context_for_gemini systemTempDir hexId (.ok res) none fs).2.read
      (outputPath systemTempDir hexId) = some (artifactContent res.prompt) ∧
    ((res.prompt == "" || stripIsEmpty res.prompt) = false →
      artifactContent res.prompt = res.prompt) ∧
    ((res.prompt == "" || stripIsEmpty res.prompt) = true →
      artifactContent res.prompt = fallbackNotice ∧
      containsSub fallbackNotice "No context generated" = true ∧
      containsSub fallbackNotice "No files were found" = true) := by
  refine ⟨rfl, ?_, ?_, ?_⟩
  · exact read_write_same fs (outputPath systemTempDir hexId) (artifactContent res.prompt)
  · intro h
    simp [artifactContent, h]
  · intro h
    refine ⟨?_, by decide, by decide⟩
    simp [artifactContent, h]

/-- C2 witness: a multi-byte Unicode prompt is read back unchanged, and a
whitespace-only prompt yields the fallback notice. -/
theorem c2_artifact_roundtrip_witness :
    (get_context_for_gemini "/tmp" "0f3a" (.ok ⟨"héllo ∀ wörld → ok", "/repo", 7⟩) none ⟨[]⟩).2.read
      (outputPath "/tmp" "0f3a") = some "héllo ∀ wörld → ok" ∧
    (get_context_for_gemini "/tmp" "0f3a" (.ok ⟨" \n\t ", "/repo", 0⟩) none ⟨[]⟩).2.read
      (outputPath "/tmp" "0f3a") = some fallbackNotice := by
  constructor
  · have h := c2_artifact_roundtrip "/tmp" "0f3a" ⟨"héllo ∀ wörld → ok", "/repo", 7⟩ ⟨[]⟩
    have he : artifactContent "héllo ∀ wörld → ok" = "héllo ∀ wörld → ok" :=
      h.2.2.1 (by decide)
    rw [he] at h
    exact h.2.1
  · have h := c2_artifact_roundtrip "/tmp" "0f3a" ⟨" \n\t ", "/repo", 0⟩ ⟨[]⟩
    have he : artifactContent " \n\t " = fallbackNotice :=
      (h.2.2.2 (by decide)).1
    rw [he] at h
    exact h.2.1

/-- C3: on success `get_context_for_gemini` returns the path
`<system-temp-dir>/Claude Code Gemini Context/context_<hex>.txt`, absolute
whenever the system temp directory is absolute, and that path holds the
written content immediately after the call; two calls with distinct random
hex suffixes produce two distinct files, neither overwriting the other. -/
theorem c3_unique_absolute_artifact (systemTempDir hex1 hex2 : String)
    (res1 res2 : ScanResult) (fs : FileSystem)
    (habs : isAbsolutePath systemTempDir = true) (hne : hex1 ≠ hex2) :
    (get_context_for_gemini systemTempDir hex1 (.ok res1) none fs).1
      = .ok (systemTempDir ++ "/" ++ contextSubfolder ++ "/" ++ ("context_" ++ hex1 ++ ".txt")) ∧
    isAbsolutePath (outputPath systemTempDir hex1) = true ∧
    (get_context_for_gemini systemTempDir hex1 (.ok res1) none fs).2.read
      (outputPath systemTempDir hex1) = some (artifactContent res1.prompt) ∧
    outputPath systemTempDir hex1 ≠ outputPath systemTempDir hex2 ∧
    ((get_context_for_gemini systemTempDir hex2 (.ok res2) none
        (get_context_for_gemini systemTempDir hex1 (.ok res1) none fs).2).2.read
      (outputPath systemTempDir hex1) = some (artifactContent res1.prompt) ∧
     (get_context_for_gemini systemTempDir hex2 (.ok res2) none
        (get_context_for_gemini systemTempDir hex1 (.ok res1) none fs).2).2.read
      (outputPath systemTempDir hex2) = some (artifactContent res2.prompt)) := by
  have hpne : outputPath systemTempDir hex1 ≠ outputPath systemTempDir hex2 :=
    fun h => hne (outputPath_hex_inj h)
  refine ⟨rfl, ?_, ?_, hpne, ?_, ?_⟩
  · exact isAbsolutePath_append _ _
      (isAbsolutePath_append _ _
        (isAbsolutePath_append _ _ (isAbsolutePath_append _ _ habs)))
  · exact read_write_same fs _ _
  · rw [show (get_context_for_gemini systemTempDir hex2 (.ok res2) none
        (get_context_for_gemini systemTempDir hex1 (.ok res1) none fs).2).2
        = ((get_context_for_gemini systemTempDir hex1 (.ok res1) none fs).2).write
            (outputPath systemTempDir hex2) (artifactContent res2.prompt) from rfl]
    rw [read_write_other _ _ _ _ (fun h => hpne h.symm)]
    exact read_write_same fs _ _
  · exact read_write_same _ _ _

/-- C3 witness at concrete inputs: temp dir "/tmp", hexes "aa" and "bb". -/
theorem c3_unique_absolute_artifact_witness :
    outputPath "/tmp" "aa" ≠ outputPath "/tmp" "bb" ∧
    isAbsolutePath (outputPath "/tmp" "aa") = true ∧
    ((get_context_for_gemini "/tmp" "bb" (.ok ⟨"second", ".", 1⟩) none
        (get_context_for_gemini "/tmp" "aa" (.ok ⟨"first", ".", 1⟩) none ⟨[]⟩).2).2.read
      (outputPath "/tmp" "aa") = some (artifactContent "first")) := by
  have h := c3_unique_absolute_artifact "/tmp" "aa" "bb" ⟨"first", ".", 1⟩ ⟨"second", ".", 1⟩ ⟨[]⟩
    (by decide) (by decide)
  exact ⟨h.2.2.2.1, h.2.1, h.2.2.2.2.1⟩

/-- C4: for every model name the supported list does not contain,
`ask_gemini_question` fails with a message containing both the rejected
model name and the literal supported-model list
"gemini-2.5-pro, gemini-2.5-flash". -/
theorem c4_invalid_model (question model : String) (apiKey : Option String)
    (systemTempDir hexId : String) (genOutcome : Except String ScanResult)
    (writeExc : Option PyExc) (readExc : Option String)
    (gemini : GeminiCallOutcome) (fs : FileSystem)
    (h : supported_models.contains model = false) :
    (ask_gemini_question question model apiKey systemTempDir hexId genOutcome
        writeExc readExc gemini fs).1 = .error (invalidModelMsg model) ∧
    containsSub (invalidModelMsg model) model = true ∧
    containsSub (invalidModelMsg model) "gemini-2.5-pro, gemini-2.5-flash" = true := by
  have h' : model ∉ supported_models := by simpa using h
  refine ⟨?_, ?_, ?_⟩
  · simp [ask_gemini_question, h']
  · simp only [invalidModelMsg]
    exact containsSub_sandwich _ _ _
  · have hint : String.intercalate ", " supported_models
        = "gemini-2.5-pro, gemini-2.5-flash" := by decide
    simp only [invalidModelMsg, hint]
    exact containsSub_mono_l _ (containsSub_right _ _)

/-- C4 witness at the concrete rejected model name "not-a-model". -/
theorem c4_invalid_model_witness :
    (ask_gemini_question "q" "not-a-model" (some "key") "/tmp" "aa"
        (.ok ⟨"p", ".", 1⟩) none none (.success (some "ans") "s") ⟨[]⟩).1
      = .error (invalidModelMsg "not-a-model") ∧
    containsSub (invalidModelMsg "not-a-model") "not-a-model" = true ∧
    containsSub (invalidModelMsg "not-a-model") "gemini-2.5-pro, gemini-2.5-flash" = true :=
  c4_invalid_model "q" "not-a-model" (some "key") "/tmp" "aa"
    (.ok ⟨"p", ".", 1⟩) none none (.success (some "ans") "s") ⟨[]⟩ (by decide)

/-- C5: with a supported model but the GEMINI_API_KEY environment value
absent or empty, `ask_gemini_question` fails with a message containing
"GEMINI_API_KEY" and mentioning the .env fallback file. -/
theorem c5_missing_credential (question model : String) (apiKey : Option String)
    (systemTempDir hexId : String) (genOutcome : Except String ScanResult)
    (writeExc : Option PyExc) (readExc : Option String)
    (gemini : GeminiCallOutcome) (fs : FileSystem)
    (hm : supported_models.contains model = true)
    (hk : apiKey = none ∨ apiKey = some "") :
    (ask_gemini_question question model apiKey systemTempDir hexId genOutcome
        writeExc readExc gemini fs).1 = .error missingKeyMsg ∧
    containsSub missingKeyMsg "GEMINI_API_KEY" = true ∧
    containsSub missingKeyMsg ".env" = true := by
  have hm' : model ∈ supported_models := by simpa using hm
  have hk' : apiKeyMissing apiKey = true := by
    rcases hk with h | h <;> simp [apiKeyMissing, h]
  refine ⟨?_, by decide, by decide⟩
  simp [ask_gemini_question, hm', hk']

/-- C5 witness: supported model "gemini-2.5-pro" and an unset key. -/
theorem c5_missing_credential_witness :
    (ask_gemini_question "q" "gemini-2.5-pro" none "/tmp" "aa"
        (.ok ⟨"p", ".", 1⟩) none none (.success (some "ans") "s") ⟨[]⟩).1
      = .error missingKeyMsg ∧
    containsSub missingKeyMsg "GEMINI_API_KEY" = true ∧
    containsSub missingKeyMsg ".env" = true :=
  c5_missing_credential "q" "gemini-2.5-pro" none "/tmp" "aa"
    (.ok ⟨"p", ".", 1⟩) none none (.success (some "ans") "s") ⟨[]⟩
    (by decide) (Or.inl rfl)

/-- C6: every artifact-write failure is classified into exactly one of
permission-denied (PermissionError clause), out-of-space (OSError with
errno 28, ENOSPC), other OS-level failure (any other OSError), or the
unexpected category (any non-OS exception) — the categories characterize
the exception shape — and every surfaced message includes the target file
path. -/
theorem c6_write_failure_classification (outputFile : String) (e : PyExc) :
    containsSub (writeErrorMessage outputFile e) outputFile = true ∧
    (writeErrorCategory e = .permissionDenied ↔ ∃ m, e = .permissionError m) ∧
    (writeErrorCategory e = .outOfSpace ↔ ∃ m, e = .osError 28 m) ∧
    (writeErrorCategory e = .osWriteFailure ↔ ∃ n m, e = .osError n m ∧ n ≠ 28) ∧
    (writeErrorCategory e = .unexpectedWriteFailure ↔ ∃ m, e = .otherError m) := by
  cases e with
  | permissionError m =>
      refine ⟨?_, ?_, ?_, ?_, ?_⟩
      · simp only [writeErrorMessage]
        exact containsSub_sandwich _ _ _
      all_goals simp [writeErrorCategory]
  | osError n m =>
      cases hn : (n == 28) with
      | true =>
          have hn' : n = 28 := by simpa using hn
          refine ⟨?_, ?_, ?_, ?_, ?_⟩
          · simp only [writeErrorMessage, hn, if_pos]
            exact containsSub_right _ _
          all_goals simp [writeErrorCategory, hn, hn']
      | false =>
          have hn' : n ≠ 28 := by simpa using hn
          refine ⟨?_, ?_, ?_, ?_, ?_⟩
          · simp only [writeErrorMessage, hn, Bool.false_eq_true, if_false]
            exact containsSub_sandwich _ _ _
          all_goals simp [writeErrorCategory, hn, hn']
  | otherError m =>
      refine ⟨?_, ?_, ?_, ?_, ?_⟩
      · simp only [writeErrorMessage]
        exact containsSub_sandwich _ _ _
      all_goals simp [writeErrorCategory]

/-- C9: in the read-artifact stage, a missing context file and a failing
read of an existing file surface as two distinct messages: the missing case
names the artifact-missing condition ("Context file not found at:"), the
read-failure case wraps the underlying read error, and the two surfaced
messages differ whenever the underlying read error does not itself contain
the missing-file phrase. -/
theorem c9_read_stage_categories (fs : FileSystem) (p m : String) :
    (fs.read p = none →
      readArtifactStage fs p (some m)
        = .error ("Failed to read context file: " ++ ("Context file not found at: " ++ p))) ∧
    (∀ content, fs.read p = some content →
      readArtifactStage fs p (some m) = .error ("Failed to read context file: " ++ m)) ∧
    containsSub ("Failed to read context file: " ++ ("Context file not found at: " ++ p))
      "Context file not found at:" = true ∧
    (containsSub m "Context file not found at:" = false →
      "Failed to read context file: " ++ ("Context file not found at: " ++ p)
        ≠ "Failed to read context file: " ++ m) := by
  have hsplit : ("Context file not found at: " : String)
      = "Context file not found at:" ++ " " := by decide
  have hcontains : containsSub ("Context file not found at: " ++ p)
      "Context file not found at:" = true := by
    rw [hsplit]
    exact containsSub_mono_r _ (containsSub_mono_r _ (containsSub_self _))
  refine ⟨?_, ?_, ?_, ?_⟩
  · intro h
    simp [readArtifactStage, h]
  · intro content hc
    simp [readArtifactStage, hc]
  · exact containsSub_mono_l _ hcontains
  · intro hm heq
    have h2 := string_append_cancel_left heq
    rw [← h2] at hm
    rw [hcontains] at hm
    exact Bool.true_eq_false.mp hm

/-- C9 witness: on the empty filesystem the missing case fires, and for the
concrete read error "boom" the two surfaced messages differ. -/
theorem c9_read_stage_categories_witness :
    readArtifactStage ⟨[]⟩ "/tmp/ctx.txt" (some "boom")
      = .error ("Failed to read context file: " ++ ("Context file not found at: " ++ "/tmp/ctx.txt")) ∧
    "Failed to read context file: " ++ ("Context file not found at: " ++ "/tmp/ctx.txt")
      ≠ "Failed to read context file: " ++ "boom" :=
  ⟨(c9_read_stage_categories ⟨[]⟩ "/tmp/ctx.txt" "boom").1 (by decide),
   (c9_read_stage_categories ⟨[]⟩ "/tmp/ctx.txt" "boom").2.2.2 (by decide)⟩

/-- C10: failing model validation or credential validation is atomic and
ordered: an unsupported model name fails with the invalid-model message for
every credential value (so the model check precedes the credential check),
and a supported model with a missing credential fails with the
missing-credential message; in both cases the filesystem is unchanged, no
context extraction is entered and no hosted-model call is made. -/
theorem c10_validation_atomic (question model : String) (apiKey : Option String)
    (systemTempDir hexId : String) (genOutcome : Except String ScanResult)
    (writeExc : Option PyExc) (readExc : Option String)
    (gemini : GeminiCallOutcome) (fs : FileSystem) :
    (supported_models.contains model = false →
      ask_gemini_question question model apiKey systemTempDir hexId genOutcome
          writeExc readExc gemini fs
        = (.error (invalidModelMsg model), ⟨fs, false, false⟩)) ∧
    (supported_models.contains model = true → apiKeyMissing apiKey = true →
      ask_gemini_question question model apiKey systemTempDir hexId genOutcome
          writeExc readExc gemini fs
        = (.error missingKeyMsg, ⟨fs, false, false⟩)) := by
  constructor
  · intro h
    have h' : model ∉ supported_models := by simpa using h
    simp [ask_gemini_question, h']
  · intro hm hk
    have hm' : model ∈ supported_models := by simpa using hm
    simp [ask_gemini_question, hm', hk]

/-- C10 witness: an invalid model with a missing key fails with the
invalid-model message, and a supported model with a missing key fails with
the missing-credential message; both leave the empty filesystem empty and
set neither effect flag. -/
theorem c10_validation_atomic_witness :
    ask_gemini_question "q" "not-a-model" none "/tmp" "aa" (.ok ⟨"p", ".", 1⟩)
        none none (.success (some "ans") "s") ⟨[]⟩
      = (.error (invalidModelMsg "not-a-model"), ⟨⟨[]⟩, false, false⟩) ∧
    ask_gemini_question "q" "gemini-2.5-flash" (some "") "/tmp" "aa" (.ok ⟨"p", ".", 1⟩)
        none none (.success (some "ans") "s") ⟨[]⟩
      = (.error missingKeyMsg, ⟨⟨[]⟩, false, false⟩) :=
  ⟨(c10_validation_atomic "q" "not-a-model" none "/tmp" "aa" (.ok ⟨"p", ".", 1⟩)
      none none (.success (some "ans") "s") ⟨[]⟩).1 (by decide),
   (c10_validation_atomic "q" "gemini-2.5-flash" (some "") "/tmp" "aa" (.ok ⟨"p", ".", 1⟩)
      none none (.success (some "ans") "s") ⟨[]⟩).2 (by decide) (by decide)⟩

end Code2PromptMcp
